import Mathlib

/-!
Verification of the lifecycle-and-status reconciliation core of
`gnuoy/ops-openstack` (an operational-agent framework for OpenStack charms).

The repository tree at hand holds `ops_openstack/plugins/classes.py`
(`BaseCephClientCharm`) and the unit tests; the framework core
(`ops_openstack/core.py`, class `OSBaseCharm`) is referenced by both but its
source is not present, so the core's data model and operations are modelled
from the specification, with the unit tests in `unit_tests/test_ops_openstack.py`
pinning the observable behaviour (service-controller calls and flag values)
where they assert it.
-/

namespace OpsOpenstack

/-- Severity of a published status, one of the four ops status classes
(ActiveStatus, WaitingStatus, MaintenanceStatus, BlockedStatus). -/
inductive StatusKind where
  | active
  | waiting
  | maintenance
  | blocked
deriving DecidableEq, Repr

/-- A published status: a severity together with a plain-string message
(an ops `StatusBase` value such as `BlockedStatus('...')`). -/
structure Status where
  kind : StatusKind
  message : String
deriving DecidableEq, Repr

/-- Modelled from the spec: the durable `_stored` flags of
`ops_openstack.core.OSBaseCharm` (not in the tree), `is_started`,
`is_paused` and `series_upgrade`, all initially false. -/
structure StoredState where
  is_started : Bool
  is_paused : Bool
  series_upgrade : Bool
deriving DecidableEq, Repr

/-- The genesis state: all flags false (checked by `test_init`). -/
def initState : StoredState :=
  { is_started := false, is_paused := false, series_upgrade := false }

/-- Whether a status is an Active verdict (`isinstance(result, ActiveStatus)`). -/
def isActive (s : Status) : Bool :=
  match s.kind with
  | StatusKind.active => true
  | _ => false

/-- Modelled from the spec: the custom-check loop of
`OSBaseCharm.update_status` (not in the tree) — checks run in caller-supplied
order and the first non-Active verdict is kept. -/
def firstFailing : List Status → Option Status
  | [] => none
  | c :: cs => if isActive c then firstFailing cs else some c

/-- Modelled from the spec: the fixed-priority status chain of
`OSBaseCharm.update_status` (not in the tree).  Priorities top to bottom:
series upgrade in progress, paused, missing required relations (names
comma-joined in declared order), not started, first failing custom check,
default ready message.  `hasRemoteMembers r` tells whether relation `r`
has at least one remote member. -/
def evaluate (state : StoredState) (requiredRelations : List String)
    (hasRemoteMembers : String → Bool) (customChecks : List Status) : Status :=
  if state.series_upgrade then
    { kind := StatusKind.blocked,
      message := "Ready for do-release-upgrade and reboot. Set complete when finished." }
  else if state.is_paused then
    { kind := StatusKind.maintenance,
      message := "Paused. Use \x27resume\x27 action to resume normal service." }
  else
    let missing := requiredRelations.filter (fun r => ! hasRemoteMembers r)
    if missing.isEmpty then
      if ! state.is_started then
        { kind := StatusKind.waiting, message := "Charm configuration in progress" }
      else
        match firstFailing customChecks with
        | some c => c
        | none => { kind := StatusKind.active, message := "Unit is ready" }
    else
      { kind := StatusKind.blocked,
        message := "Missing relations: " ++ String.intercalate ", " missing }

/-- Keep the first occurrence of each element, dropping any element already
seen (the order-preserving de-duplication of `OrderedDict.fromkeys`);
`seen` accumulates the keys emitted so far. -/
def dedupFirstAux (seen : List String) : List String → List String
  | [] => []
  | x :: xs =>
    if x ∈ seen then dedupFirstAux seen xs
    else x :: dedupFirstAux (x :: seen) xs

/-- Keep the first occurrence of each element, dropping later duplicates
(the order-preserving de-duplication of `OrderedDict.fromkeys`). -/
def dedupFirst (l : List String) : List String :=
  dedupFirstAux [] l

/-- Modelled from the spec: `OSBaseCharm.services` (not in the tree) — the
flattened, first-appearance-ordered, de-duplicated list of all service names
of the file→services `RESTART_MAP`. -/
def services (restartMap : List (String × List String)) : List String :=
  dedupFirst (restartMap.flatMap Prod.snd)

/-- The `RESTART_MAP` declared by `OpenStackTestAPICharm` in
`unit_tests/test_ops_openstack.py`. -/
def testRestartMap : List (String × List String) :=
  [("/etc/f1.conf", ["apache2"]),
   ("/etc/f2.conf", ["apache2", "ks-api"]),
   ("/etc/f3.conf", [])]

/-- What the ServiceController reported: which services succeeded and which
failed to stop or start (the pair returned by
`os_utils.manage_payload_services`). -/
structure SvcResult where
  succeeded : List String
  failed : List String
deriving DecidableEq, Repr

/-- A request issued to the ServiceController: the action name passed to
`manage_payload_services` together with the service list. -/
structure SvcCall where
  action : String
  targets : List String
deriving DecidableEq, Repr

/-- Modelled from the spec: `OSBaseCharm.on_pause_action` (not in the tree) —
instruct the ServiceController to pause all managed services and set
`is_paused := true` regardless of the reported result (pinned by
`test_pause`, which asserts the flag and the pause call). -/
def on_pause_action (restartMap : List (String × List String))
    (st : StoredState) (result : SvcResult) : StoredState × SvcCall :=
  ({ st with is_paused := true }, { action := "pause", targets := services restartMap })

/-- Modelled from the spec: `OSBaseCharm.on_resume_action` (not in the tree) —
instruct the ServiceController to resume all managed services and set
`is_paused := false` regardless of the reported result (pinned by
`test_resume`). -/
def on_resume_action (restartMap : List (String × List String))
    (st : StoredState) (result : SvcResult) : StoredState × SvcCall :=
  ({ st with is_paused := false }, { action := "resume", targets := services restartMap })

/-- Modelled from the spec: `OSBaseCharm.on_pre_series_upgrade` (not in the
tree) — pause the managed services, then set both `is_paused` and
`series_upgrade` to true (pinned by `test_pre_series_upgrade`). -/
def on_pre_series_upgrade (restartMap : List (String × List String))
    (st : StoredState) (result : SvcResult) : StoredState × SvcCall :=
  ({ st with is_paused := true, series_upgrade := true },
   { action := "pause", targets := services restartMap })

/-- Modelled from the spec: `OSBaseCharm.on_post_series_upgrade` (not in the
tree) — set `series_upgrade := false` and `is_paused := false`; the
service-controller call it issues is pinned by `test_post_series_upgrade`,
which asserts `manage_payload_services` is called once with `resume` and the
full service list. -/
def on_post_series_upgrade (restartMap : List (String × List String))
    (st : StoredState) (result : SvcResult) : StoredState × SvcCall :=
  ({ st with is_paused := false, series_upgrade := false },
   { action := "resume", targets := services restartMap })

/-- Outcome of constructing and validating the external
`charmhelpers` `CephBlueStoreCompressionContext` and reading its kwargs:
either it succeeds with the option dictionary, or it raises `KeyError`
(charm has no BlueStore compression options), or `validate` raises
`ValueError` with a message. -/
inductive CtxOutcome where
  | ok (kwargs : List (String × String))
  | keyError
  | valueError (msg : String)
deriving DecidableEq, Repr

/-- `BaseCephClientCharm.get_bluestore_compression`
(`ops_openstack/plugins/classes.py`): `KeyError` from the compression context
is caught and yields `None`; `ValueError` propagates (`Except.error` with the
message); otherwise the kwargs dictionary is returned. -/
def get_bluestore_compression (ctx : CtxOutcome) :
    Except String (Option (List (String × String))) :=
  match ctx with
  | CtxOutcome.keyError => Except.ok none
  | CtxOutcome.valueError m => Except.error m
  | CtxOutcome.ok kwargs => Except.ok (some kwargs)

/-- `BaseCephClientCharm.check_bluestore_compression`
(`ops_openstack/plugins/classes.py`): calls `get_bluestore_compression`,
returning `ActiveStatus()` on success and catching `ValueError` into
`BlockedStatus('Invalid configuration: ' + str(e))`. -/
def check_bluestore_compression (ctx : CtxOutcome) : Status :=
  match get_bluestore_compression ctx with
  | Except.ok _ => { kind := StatusKind.active, message := "" }
  | Except.error m =>
      { kind := StatusKind.blocked, message := "Invalid configuration: " ++ m }

/-! ## Helper lemmas -/

theorem firstFailing_eq_none_of_all_active (checks : List Status)
    (h : ∀ c ∈ checks, isActive c = true) : firstFailing checks = none := by
  induction checks with
  | nil => rfl
  | cons c cs ih =>
    have hc : isActive c = true := h c (List.mem_cons_self c cs)
    simp only [firstFailing, hc, if_true]
    exact ih (fun x hx => h x (List.mem_cons_of_mem c hx))

theorem firstFailing_append_of_first_failure (pre : List Status) (c : Status)
    (post : List Status) (hpre : ∀ x ∈ pre, isActive x = true)
    (hc : isActive c = false) : firstFailing (pre ++ c :: post) = some c := by
  induction pre with
  | nil => simp [firstFailing, hc]
  | cons x xs ih =>
    have hx : isActive x = true := hpre x (List.mem_cons_self x xs)
    simp only [List.cons_append, firstFailing, hx, if_true]
    exact ih (fun y hy => hpre y (List.mem_cons_of_mem x hy))

/-! ## Claim theorems -/

/-- C1: for every LifecycleState with `series_upgrade = true`,
`evaluate` yields a Blocked verdict with the fixed upgrade message,
regardless of `is_paused`, `is_started`, the relations and the custom
checks. -/
theorem evaluate_series_upgrade_blocked (st : StoredState)
    (req : List String) (mem : String → Bool) (checks : List Status)
    (h : st.series_upgrade = true) :
    evaluate st req mem checks =
      { kind := StatusKind.blocked,
        message := "Ready for do-release-upgrade and reboot. Set complete when finished." } := by
  simp [evaluate, h]

/-- C1 witness: a paused, not-started state mid-upgrade with a missing
relation and a failing custom check still reports the fixed upgrade
Blocked message. -/
theorem evaluate_series_upgrade_blocked_witness :
    evaluate { is_started := false, is_paused := true, series_upgrade := true }
      ["shared-db"] (fun _ => false)
      [{ kind := StatusKind.maintenance, message := "Custom check failed" }] =
      { kind := StatusKind.blocked,
        message := "Ready for do-release-upgrade and reboot. Set complete when finished." } :=
  evaluate_series_upgrade_blocked _ _ _ _ rfl

/-- C4: for every LifecycleState with `series_upgrade = false` and
`is_paused = true`, `evaluate` yields Maintenance with the resume-action
message, regardless of `is_started`, relations and custom checks. -/
theorem evaluate_paused_maintenance (st : StoredState)
    (req : List String) (mem : String → Bool) (checks : List Status)
    (h1 : st.series_upgrade = false) (h2 : st.is_paused = true) :
    evaluate st req mem checks =
      { kind := StatusKind.maintenance,
        message := "Paused. Use \x27resume\x27 action to resume normal service." } := by
  simp [evaluate, h1, h2]

/-- C4 witness: a paused, not-started state with a missing relation and a
failing custom check reports the Maintenance resume message. -/
theorem evaluate_paused_maintenance_witness :
    evaluate { is_started := false, is_paused := true, series_upgrade := false }
      ["shared-db"] (fun _ => false)
      [{ kind := StatusKind.blocked, message := "Plugin Custom check failed" }] =
      { kind := StatusKind.maintenance,
        message := "Paused. Use \x27resume\x27 action to resume normal service." } :=
  evaluate_paused_maintenance _ _ _ _ rfl rfl

/-- C3: when not upgrading and not paused and some required relation has no
remote members, `evaluate` yields Blocked listing exactly the missing
relation names, comma-joined, in declared order. -/
theorem evaluate_missing_relations_blocked (st : StoredState)
    (req : List String) (mem : String → Bool) (checks : List Status)
    (h1 : st.series_upgrade = false) (h2 : st.is_paused = false)
    (h3 : req.filter (fun r => ! mem r) ≠ []) :
    evaluate st req mem checks =
      { kind := StatusKind.blocked,
        message := "Missing relations: "
          ++ String.intercalate ", " (req.filter (fun r => ! mem r)) } := by
  simp only [evaluate, h1, h2, Bool.false_eq_true, if_false]
  rw [if_neg]
  simp [List.isEmpty_iff, h3]

/-- C3 witness: with `REQUIRED_RELATIONS = [shared-db]` and no shared-db
relation, an un-started, un-paused unit publishes exactly
`Missing relations: shared-db` with Blocked severity. -/
theorem evaluate_missing_relations_blocked_witness :
    evaluate initState ["shared-db"] (fun _ => false) [] =
      { kind := StatusKind.blocked, message := "Missing relations: shared-db" } := by
  have h := evaluate_missing_relations_blocked initState ["shared-db"]
    (fun _ => false) [] rfl rfl (by simp)
  simpa using h

/-- C6: with required relations met, not upgrading, not paused and
`is_started = false`, `evaluate` yields Waiting with the
configuration-in-progress message. -/
theorem evaluate_not_started_waiting (st : StoredState)
    (req : List String) (mem : String → Bool) (checks : List Status)
    (h1 : st.series_upgrade = false) (h2 : st.is_paused = false)
    (h3 : req.filter (fun r => ! mem r) = []) (h4 : st.is_started = false) :
    evaluate st req mem checks =
      { kind := StatusKind.waiting, message := "Charm configuration in progress" } := by
  simp [evaluate, h1, h2, h3, h4]

/-- C6 witness: relations met, flags clear, not started, even with a failing
custom check queued, the status is Waiting with the progress message. -/
theorem evaluate_not_started_waiting_witness :
    evaluate initState ["shared-db"] (fun _ => true)
      [{ kind := StatusKind.blocked, message := "Plugin Custom check failed" }] =
      { kind := StatusKind.waiting, message := "Charm configuration in progress" } :=
  evaluate_not_started_waiting _ _ _ _ rfl rfl rfl rfl

/-- C5: when all built-in conditions are satisfied, the first custom check
returning a non-Active verdict determines the published status verbatim:
earlier checks all Active, the failing check's own severity and message are
published unchanged. -/
theorem evaluate_first_failing_custom_check (st : StoredState)
    (req : List String) (mem : String → Bool)
    (pre : List Status) (c : Status) (post : List Status)
    (h1 : st.series_upgrade = false) (h2 : st.is_paused = false)
    (h3 : req.filter (fun r => ! mem r) = []) (h4 : st.is_started = true)
    (h5 : ∀ x ∈ pre, isActive x = true) (h6 : isActive c = false) :
    evaluate st req mem (pre ++ c :: post) = c := by
  simp [evaluate, h1, h2, h3, h4,
    firstFailing_append_of_first_failure pre c post h5 h6]

/-- C5 witness: with built-ins satisfied, a first check returning Active and
a second returning Blocked with its own message, the published status is
exactly the second check's verdict. -/
theorem evaluate_first_failing_custom_check_witness :
    evaluate { is_started := true, is_paused := false, series_upgrade := false }
      ["shared-db"] (fun _ => true)
      ([{ kind := StatusKind.active, message := "" }] ++
        { kind := StatusKind.blocked, message := "Plugin Custom check failed" } :: []) =
      { kind := StatusKind.blocked, message := "Plugin Custom check failed" } :=
  evaluate_first_failing_custom_check _ _ _ _ _ _ rfl rfl rfl rfl
    (by intro x hx; simp at hx; subst hx; rfl) rfl

/-- C7: in the default case (not upgrading, not paused, relations met,
started, every custom check Active) `evaluate` yields Active with the fixed
ready message. -/
theorem evaluate_default_active (st : StoredState)
    (req : List String) (mem : String → Bool) (checks : List Status)
    (h1 : st.series_upgrade = false) (h2 : st.is_paused = false)
    (h3 : req.filter (fun r => ! mem r) = []) (h4 : st.is_started = true)
    (h5 : ∀ c ∈ checks, isActive c = true) :
    evaluate st req mem checks =
      { kind := StatusKind.active, message := "Unit is ready" } := by
  simp [evaluate, h1, h2, h3, h4, firstFailing_eq_none_of_all_active checks h5]

/-- C7 witness: relations met, started, no custom checks → Active with
`Unit is ready`. -/
theorem evaluate_default_active_witness :
    evaluate { is_started := true, is_paused := false, series_upgrade := false }
      ["shared-db"] (fun _ => true) [] =
      { kind := StatusKind.active, message := "Unit is ready" } :=
  evaluate_default_active _ _ _ _ rfl rfl rfl rfl (by intro c hc; cases hc)

theorem mem_dedupFirstAux (seen l : List String) (x : String) :
    x ∈ dedupFirstAux seen l ↔ x ∈ l ∧ x ∉ seen := by
  induction l generalizing seen with
  | nil => simp [dedupFirstAux]
  | cons y ys ih =>
    by_cases hy : y ∈ seen
    · by_cases hx : x = y
      · subst hx
        simp [dedupFirstAux, hy, ih, hy]
      · simp [dedupFirstAux, hy, ih, hx]
    · by_cases hx : x = y
      · subst hx
        simp [dedupFirstAux, hy]
      · simp [dedupFirstAux, hy, ih, hx]

theorem nodup_dedupFirstAux (seen l : List String) :
    (dedupFirstAux seen l).Nodup := by
  induction l generalizing seen with
  | nil => simp [dedupFirstAux]
  | cons y ys ih =>
    by_cases hy : y ∈ seen
    · simpa [dedupFirstAux, hy] using ih seen
    · simp only [dedupFirstAux, hy, if_false, List.nodup_cons]
      refine ⟨fun hmem => ?_, ih (y :: seen)⟩
      exact ((mem_dedupFirstAux (y :: seen) ys y).mp hmem).2 (List.mem_cons_self y seen)

theorem dedupFirstAux_sublist (seen l : List String) :
    (dedupFirstAux seen l).Sublist l := by
  induction l generalizing seen with
  | nil => simp [dedupFirstAux]
  | cons y ys ih =>
    by_cases hy : y ∈ seen
    · simp only [dedupFirstAux, hy, if_true]
      exact (ih seen).trans (List.sublist_cons_self y ys)
    · simp only [dedupFirstAux, hy, if_false]
      exact (ih (y :: seen)).cons₂ y

/-- C9: `services` is a pure function of the file→services map returning the
flattened list de-duplicated keeping first appearances (no duplicates, a
subsequence of the flattened list, with exactly its elements); on the test
`RESTART_MAP` it returns exactly `[apache2, ks-api]`. -/
theorem services_spec :
    services testRestartMap = ["apache2", "ks-api"] ∧
    (∀ m : List (String × List String),
      (services m).Nodup ∧
      (services m).Sublist (m.flatMap Prod.snd) ∧
      (∀ s, s ∈ services m ↔ s ∈ m.flatMap Prod.snd)) := by
  refine ⟨by decide, fun m => ⟨nodup_dedupFirstAux [] _, dedupFirstAux_sublist [] _, ?_⟩⟩
  intro s
  simpa using mem_dedupFirstAux [] (m.flatMap Prod.snd) s

/-- C8: from any un-paused starting state, `pause` (which sets
`is_paused := true` and issues a pause call) followed immediately by
`resume` restores the exact pre-pause state, for every ServiceController
report — partial service failure never prevents the flag mutation. -/
theorem pause_resume_roundtrip (restartMap : List (String × List String))
    (st : StoredState) (r1 r2 : SvcResult) (h : st.is_paused = false) :
    (on_pause_action restartMap st r1).1.is_paused = true ∧
    (on_resume_action restartMap (on_pause_action restartMap st r1).1 r2).1 = st := by
  refine ⟨rfl, ?_⟩
  cases st
  simp_all [on_pause_action, on_resume_action]

/-- C8 witness: from the genesis state, with the controller reporting that
`ks-api` failed to stop and then `apache2` failed to start, pause sets the
flag and resume restores the genesis state. -/
theorem pause_resume_roundtrip_witness :
    (on_pause_action testRestartMap initState
        { succeeded := ["apache2"], failed := ["ks-api"] }).1.is_paused = true ∧
    (on_resume_action testRestartMap
        (on_pause_action testRestartMap initState
          { succeeded := ["apache2"], failed := ["ks-api"] }).1
        { succeeded := ["ks-api"], failed := ["apache2"] }).1 = initState :=
  pause_resume_roundtrip testRestartMap initState
    { succeeded := ["apache2"], failed := ["ks-api"] }
    { succeeded := ["ks-api"], failed := ["apache2"] } rfl

/-- C2 counterexample: the claim says `end_upgrade` does not automatically
resume services, but on a concrete mid-upgrade state the post-series-upgrade
transition issues a `resume` call for the full managed service list to the
ServiceController (as `test_post_series_upgrade` asserts). -/
theorem end_upgrade_issues_resume :
    (on_post_series_upgrade testRestartMap
        { is_started := true, is_paused := true, series_upgrade := true }
        { succeeded := ["apache2"], failed := ["ks-api"] }).2 =
      { action := "resume", targets := ["apache2", "ks-api"] } := by
  decide

/-- C2 (amended): `begin_upgrade` issues a pause of the managed services and
sets both `series_upgrade` and `is_paused` to true; `end_upgrade` sets
`series_upgrade = false` and `is_paused = false` unconditionally and issues
a resume of the managed services, whatever the controller reports. -/
theorem series_upgrade_transitions (restartMap : List (String × List String))
    (st st2 : StoredState) (r1 r2 : SvcResult) :
    (on_pre_series_upgrade restartMap st r1).1.series_upgrade = true ∧
    (on_pre_series_upgrade restartMap st r1).1.is_paused = true ∧
    (on_pre_series_upgrade restartMap st r1).2 =
      { action := "pause", targets := services restartMap } ∧
    (on_post_series_upgrade restartMap st2 r2).1.series_upgrade = false ∧
    (on_post_series_upgrade restartMap st2 r2).1.is_paused = false ∧
    (on_post_series_upgrade restartMap st2 r2).2 =
      { action := "resume", targets := services restartMap } :=
  ⟨rfl, rfl, rfl, rfl, rfl, rfl⟩

/-- C10: `check_bluestore_compression` returns Blocked with message exactly
`Invalid configuration: ` followed by the error text precisely when the
bluestore-compression validation raises `ValueError`; in every other case,
including the `KeyError` signalling a charm without BlueStore options, it
returns `ActiveStatus` and raises nothing. -/
theorem check_bluestore_compression_spec (ctx : CtxOutcome) :
    (∀ m, ctx = CtxOutcome.valueError m →
      check_bluestore_compression ctx =
        { kind := StatusKind.blocked, message := "Invalid configuration: " ++ m }) ∧
    ((∀ m, ctx ≠ CtxOutcome.valueError m) →
      check_bluestore_compression ctx =
        { kind := StatusKind.active, message := "" }) := by
  cases ctx with
  | ok kwargs =>
    refine ⟨fun m hm => CtxOutcome.noConfusion hm, fun _ => ?_⟩
    simp [check_bluestore_compression, get_bluestore_compression]
  | keyError =>
    refine ⟨fun m hm => CtxOutcome.noConfusion hm, fun _ => ?_⟩
    simp [check_bluestore_compression, get_bluestore_compression]
  | valueError m =>
    refine ⟨fun m2 hm => ?_, fun habs => absurd rfl (habs m)⟩
    cases hm
    simp [check_bluestore_compression, get_bluestore_compression]

/-- C10 witness: a validation `ValueError` of `BadKey` yields Blocked
`Invalid configuration: BadKey`; absent options (`KeyError`) yield Active. -/
theorem check_bluestore_compression_spec_witness :
    check_bluestore_compression (CtxOutcome.valueError "BadKey") =
      { kind := StatusKind.blocked, message := "Invalid configuration: BadKey" } ∧
    check_bluestore_compression CtxOutcome.keyError =
      { kind := StatusKind.active, message := "" } := by
  refine ⟨?_, ?_⟩
  · have h := (check_bluestore_compression_spec (CtxOutcome.valueError "BadKey")).1
      "BadKey" rfl
    simpa using h
  · exact (check_bluestore_compression_spec CtxOutcome.keyError).2
      (fun m hm => CtxOutcome.noConfusion hm)

end OpsOpenstack
